import Mathlib

/-!
Shallow embedding of `src/main.cpp` (pilkch/allocator): two STL-style
allocators, `allocator::cDefaultAllocator<T>` and `allocator::cCountedAllocator<T>`,
plus the demo harness `RunAllocatorTest` / `main`.

Modelling choices, each tied to the source:
* `size_t` is modelled as `Nat` with explicit reduction modulo `2 ^ 64`
  (`szW`); `std::numeric_limits<std::size_t>::max()` is `SIZE_MAX = 2 ^ 64 - 1`
  (LP64 target, as the repository's CMake builds for ordinary 64-bit hosts).
* An element type `T` enters the allocator code only through `sizeof(T)`,
  so an instance carries a `sizeofT : Nat` field standing for its
  element-type parameterization.
* `assert(...)` aborting the process is modelled by `Option`: `none` means a
  fatal assertion fired.  Observable side effects of a call (acquiring or
  releasing raw memory, running a constructor or destructor, an assertion
  firing) are recorded as an `Event` trace so that the ORDER of effects inside
  one member function is part of the model.
* `::operator new` out-of-memory propagation is outside the embedding: the
  acquisition itself is the `Event.acquire` effect.
-/

/-- The value `2 ^ 64`, the modulus of `size_t` arithmetic on the LP64 target. -/
def szW : Nat := 2 ^ 64

/-- The value `std::numeric_limits<std::size_t>::max()` (main.cpp lines 115 and 225). -/
def SIZE_MAX : Nat := 2 ^ 64 - 1

/-- Observable side effects of one allocator member-function call. -/
inductive Event : Type where
  /-- raw memory acquired via global `operator new` -/
  | acquire : Event
  /-- raw memory released via global `operator delete` -/
  | release : Event
  /-- placement-new copy construction ran -/
  | ctorRun : Event
  /-- the element destructor `p->~T()` ran -/
  | dtorRun : Event
  /-- a fatal `assert` fired -/
  | assertFail : Event
deriving DecidableEq, Repr

/-- Embedding of `allocator::cDefaultAllocator<T>` (main.cpp 67-149): stateless apart from
its element-type parameter, which is visible to the code only as `sizeof(T)`. -/
structure cDefaultAllocator : Type where
  sizeofT : Nat
deriving DecidableEq, Repr

/-- Embedding of `allocator::cCountedAllocator<T>` (main.cpp 169-268): the element-type
parameter as `sizeof(T)` plus the two private `size_t` counters. -/
structure cCountedAllocator : Type where
  sizeofT : Nat
  nAllocated : Nat
  nConstructed : Nat
deriving DecidableEq, Repr

/-- Member `cDefaultAllocator<T>::max_size` (main.cpp 113-116):
`std::numeric_limits<std::size_t>::max() / sizeof(T)`. -/
def cDefaultAllocator.max_size (a : cDefaultAllocator) : Nat :=
  SIZE_MAX / a.sizeofT

/-- Member `cCountedAllocator<T>::max_size` (main.cpp 223-226): same formula; the
member is `const` and reads neither counter. -/
def cCountedAllocator.max_size (a : cCountedAllocator) : Nat :=
  SIZE_MAX / a.sizeofT

/-- The rebind/converting copy constructor
`cCountedAllocator<T>::cCountedAllocator(const cCountedAllocator<U>&)`
(main.cpp 210-215) together with `rebind<U>::other` (main.cpp 183-187):
produce the `U`-parameterized instance, copying both counters by value. -/
def cCountedAllocator.rebindTo (a : cCountedAllocator) (sizeofU : Nat) :
    cCountedAllocator :=
  { sizeofT := sizeofU, nAllocated := a.nAllocated, nConstructed := a.nConstructed }

/-- Same-type copy constructor `cCountedAllocator(const cCountedAllocator&)`
(main.cpp 205-209): member-wise value copy of both `size_t` counters. -/
def cCountedAllocator.copy (a : cCountedAllocator) : cCountedAllocator :=
  { sizeofT := a.sizeofT, nAllocated := a.nAllocated, nConstructed := a.nConstructed }

/-- Constructor `cDefaultAllocator<T>::cDefaultAllocator(const cDefaultAllocator<U>&)`
(main.cpp 104-107) with `rebind<U>::other` (main.cpp 81-85): no state to copy. -/
def cDefaultAllocator.rebindTo (_ : cDefaultAllocator) (sizeofU : Nat) :
    cDefaultAllocator :=
  { sizeofT := sizeofU }

/-- Member `cCountedAllocator::allocate(num, hint)` (main.cpp 229-237): acquires raw
memory, then `nAllocated += num` in `size_t` arithmetic.  Never asserts. -/
def cCountedAllocator.allocate (a : cCountedAllocator) (num : Nat) :
    List Event × cCountedAllocator :=
  ([Event.acquire],
   { a with nAllocated := (a.nAllocated + num) % szW })

/-- Member `cCountedAllocator::deallocate(p, num)` (main.cpp 240-246): releases the
memory, then `nAllocated -= num` in `size_t` arithmetic (wrapping modulo
`2 ^ 64` when `num` exceeds the counter).  Never asserts. -/
def cCountedAllocator.deallocate (a : cCountedAllocator) (num : Nat) :
    List Event × cCountedAllocator :=
  ([Event.release],
   { a with nAllocated := (a.nAllocated + (szW - num % szW)) % szW })

/-- Member `cCountedAllocator::construct(p, value)` (main.cpp 249-254): placement-new
copy construction, then `nConstructed++`. -/
def cCountedAllocator.construct (a : cCountedAllocator) :
    List Event × cCountedAllocator :=
  ([Event.ctorRun],
   { a with nConstructed := (a.nConstructed + 1) % szW })

/-- Member `cCountedAllocator::destroy(p)` (main.cpp 257-263).  The source order is:
`p->~T();` FIRST, then `assert(nConstructed != 0);`, then `nConstructed--`.
A failing assert aborts (`none`), but only after the destructor has run. -/
def cCountedAllocator.destroy (a : cCountedAllocator) :
    List Event × Option cCountedAllocator :=
  if a.nConstructed = 0 then
    ([Event.dtorRun, Event.assertFail], none)
  else
    ([Event.dtorRun], some { a with nConstructed := a.nConstructed - 1 })

/-- Destructor `~cCountedAllocator` (main.cpp 216-220):
`assert(nAllocated == 0); assert(nConstructed == 0);`. -/
def cCountedAllocator.dtorPasses (a : cCountedAllocator) : Bool :=
  decide (a.nAllocated = 0) && decide (a.nConstructed = 0)

/-- Free function `allocator::operator==(const cDefaultAllocator<T1>&, const cDefaultAllocator<T2>&)`
(main.cpp 152-156): unconditionally `true`, ignoring both arguments. -/
def defaultEq (_ _ : cDefaultAllocator) : Bool := true

/-- Free function `allocator::operator!=` for `cDefaultAllocator` (main.cpp 158-162):
unconditionally `false`. -/
def defaultNe (_ _ : cDefaultAllocator) : Bool := false

/-- Free function `allocator::operator==(const cCountedAllocator<T1>&, const cCountedAllocator<T2>&)`
(main.cpp 271-275): unconditionally `true`, ignoring counters and types. -/
def countedEq (_ _ : cCountedAllocator) : Bool := true

/-- Free function `allocator::operator!=` for `cCountedAllocator` (main.cpp 277-281):
unconditionally `false`. -/
def countedNe (_ _ : cCountedAllocator) : Bool := false

/-- One client call against a counted allocator instance, abstracting the
pointer arguments (which the counters never inspect). -/
inductive Op : Type where
  | alloc : Nat → Op
  | dealloc : Nat → Op
  | construct : Op
  | destroy : Op
deriving DecidableEq, Repr

/-- Effect of one call on the instance state; `none` = a fatal assert fired
during the call (only `destroy` can assert). -/
def applyOp (a : cCountedAllocator) : Op → Option cCountedAllocator
  | Op.alloc n => some (a.allocate n).2
  | Op.dealloc n => some (a.deallocate n).2
  | Op.construct => some a.construct.2
  | Op.destroy => a.destroy.2

/-- Run a call sequence from a given instance state, stopping at the first
fatal assert. -/
def runOps (a : cCountedAllocator) : List Op → Option cCountedAllocator
  | [] => some a
  | op :: rest =>
      match applyOp a op with
      | none => none
      | some a' => runOps a' rest

/-- A freshly default-constructed counted instance (main.cpp 200-204):
both counters zero. -/
def freshCounted (sz : Nat) : cCountedAllocator :=
  { sizeofT := sz, nAllocated := 0, nConstructed := 0 }

/-- The whole lifetime of one counted instance: default-construct, run the
call sequence, then destroy the instance.  `true` iff no assert fired during
any call and both destructor asserts pass. -/
def destroyedCleanly (sz : Nat) (ops : List Op) : Bool :=
  match runOps (freshCounted sz) ops with
  | none => false
  | some a => a.dtorPasses

/-- Total element count passed to `allocate` over a call sequence. -/
def sumAlloc : List Op → Nat
  | [] => 0
  | Op.alloc n :: rest => n + sumAlloc rest
  | _ :: rest => sumAlloc rest

/-- Total element count passed to `deallocate` over a call sequence. -/
def sumDealloc : List Op → Nat
  | [] => 0
  | Op.dealloc n :: rest => n + sumDealloc rest
  | _ :: rest => sumDealloc rest

/-- Number of `construct` calls in a sequence. -/
def numConstruct : List Op → Nat
  | [] => 0
  | Op.construct :: rest => 1 + numConstruct rest
  | _ :: rest => numConstruct rest

/-- Number of `destroy` calls in a sequence. -/
def numDestroy : List Op → Nat
  | [] => 0
  | Op.destroy :: rest => 1 + numDestroy rest
  | _ :: rest => numDestroy rest

/-- The construction-counter automaton alone: starting from counter value `c`,
every `destroy` in the sequence finds a nonzero counter (so its assert would
pass).  This mirrors the second state component of `runOps` and nothing else. -/
def safeDestroys (c : Nat) : List Op → Bool
  | [] => true
  | Op.construct :: rest => safeDestroys ((c + 1) % szW) rest
  | Op.destroy :: rest => !(decide (c = 0)) && safeDestroys (c - 1) rest
  | _ :: rest => safeDestroys c rest

/-- The demo harness `RunAllocatorTest` (main.cpp 316-361): exercises the
containers and unconditionally returns `true` on normal completion. -/
def RunAllocatorTest : Bool := true

/-- Constant `EXIT_SUCCESS` from `<cstdlib>`. -/
def EXIT_SUCCESS : Nat := 0

/-- Constant `EXIT_FAILURE` from `<cstdlib>`. -/
def EXIT_FAILURE : Nat := 1

/-- The ternary in `main` (main.cpp 363-366):
`RunAllocatorTest() ? EXIT_FAILURE : EXIT_SUCCESS`, as a function of the
harness result. -/
def mainOf (b : Bool) : Nat := if b then EXIT_FAILURE else EXIT_SUCCESS

/-- Return value of `main` (main.cpp 365). -/
def mainResult : Nat := mainOf RunAllocatorTest

/-! ### Helper lemmas about `runOps` -/

theorem szW_pos : 0 < szW := by decide

/-- A run succeeds exactly when the construction-counter automaton alone never
meets a `destroy` at counter zero: the allocation counter can never abort. -/
theorem runOps_isSome_eq (ops : List Op) :
    ∀ a : cCountedAllocator, (runOps a ops).isSome = safeDestroys a.nConstructed ops := by
  induction ops with
  | nil => intro a; rfl
  | cons op rest ih =>
    intro a
    cases op with
    | alloc n =>
      simpa [runOps, applyOp, cCountedAllocator.allocate, safeDestroys] using ih _
    | dealloc n =>
      simpa [runOps, applyOp, cCountedAllocator.deallocate, safeDestroys] using ih _
    | construct =>
      simpa [runOps, applyOp, cCountedAllocator.construct, safeDestroys] using ih _
    | destroy =>
      by_cases h : a.nConstructed = 0
      · simp [runOps, applyOp, cCountedAllocator.destroy, safeDestroys, h]
      · simpa [runOps, applyOp, cCountedAllocator.destroy, safeDestroys, h] using ih _

/-- Through a successful run, the allocation counter tracks
`initial + sumAlloc - sumDealloc` modulo `2 ^ 64`. -/
theorem runOps_alloc_congr (ops : List Op) :
    ∀ a a' : cCountedAllocator, runOps a ops = some a' →
      (a'.nAllocated + sumDealloc ops) % szW = (a.nAllocated + sumAlloc ops) % szW := by
  induction ops with
  | nil =>
    intro a a' h
    simp only [runOps] at h
    cases h
    rfl
  | cons op rest ih =>
    intro a a' h
    cases op with
    | alloc n =>
      simp only [runOps, applyOp, cCountedAllocator.allocate] at h
      have hr := ih _ _ h
      simp only [sumAlloc, sumDealloc] at hr ⊢
      simp only [szW] at hr ⊢
      omega
    | dealloc n =>
      simp only [runOps, applyOp, cCountedAllocator.deallocate] at h
      have hr := ih _ _ h
      simp only [sumAlloc, sumDealloc] at hr ⊢
      simp only [szW] at hr ⊢
      omega
    | construct =>
      simp only [runOps, applyOp, cCountedAllocator.construct] at h
      have hr := ih _ _ h
      simpa [sumAlloc, sumDealloc] using hr
    | destroy =>
      simp only [runOps, applyOp, cCountedAllocator.destroy] at h
      by_cases hc : a.nConstructed = 0
      · simp [hc] at h
      · simp only [hc, if_neg, ite_false] at h
        have hr := ih _ _ h
        simpa [sumAlloc, sumDealloc] using hr

/-- Through a successful run, the construction counter tracks
`initial + numConstruct - numDestroy` modulo `2 ^ 64`. -/
theorem runOps_con_congr (ops : List Op) :
    ∀ a a' : cCountedAllocator, runOps a ops = some a' →
      (a'.nConstructed + numDestroy ops) % szW = (a.nConstructed + numConstruct ops) % szW := by
  induction ops with
  | nil =>
    intro a a' h
    simp only [runOps] at h
    cases h
    rfl
  | cons op rest ih =>
    intro a a' h
    cases op with
    | alloc n =>
      simp only [runOps, applyOp, cCountedAllocator.allocate] at h
      have hr := ih _ _ h
      simpa [numConstruct, numDestroy] using hr
    | dealloc n =>
      simp only [runOps, applyOp, cCountedAllocator.deallocate] at h
      have hr := ih _ _ h
      simpa [numConstruct, numDestroy] using hr
    | construct =>
      simp only [runOps, applyOp, cCountedAllocator.construct] at h
      have hr := ih _ _ h
      simp only [numConstruct, numDestroy] at hr ⊢
      simp only [szW] at hr ⊢
      omega
    | destroy =>
      simp only [runOps, applyOp, cCountedAllocator.destroy] at h
      by_cases hc : a.nConstructed = 0
      · simp [hc] at h
      · simp only [hc, if_neg, ite_false] at h
        have hr := ih _ _ h
        simp only [numConstruct, numDestroy] at hr ⊢
        simp only [szW] at hr ⊢
        omega

/-- Both counters stay below `2 ^ 64` through a successful run. -/
theorem runOps_bounds (ops : List Op) :
    ∀ a a' : cCountedAllocator, runOps a ops = some a' →
      a.nAllocated < szW → a.nConstructed < szW →
      a'.nAllocated < szW ∧ a'.nConstructed < szW := by
  induction ops with
  | nil =>
    intro a a' h h1 h2
    simp only [runOps] at h
    cases h
    exact ⟨h1, h2⟩
  | cons op rest ih =>
    intro a a' h h1 h2
    cases op with
    | alloc n =>
      simp only [runOps, applyOp, cCountedAllocator.allocate] at h
      exact ih _ _ h (Nat.mod_lt _ szW_pos) h2
    | dealloc n =>
      simp only [runOps, applyOp, cCountedAllocator.deallocate] at h
      exact ih _ _ h (Nat.mod_lt _ szW_pos) h2
    | construct =>
      simp only [runOps, applyOp, cCountedAllocator.construct] at h
      exact ih _ _ h h1 (Nat.mod_lt _ szW_pos)
    | destroy =>
      simp only [runOps, applyOp, cCountedAllocator.destroy] at h
      by_cases hc : a.nConstructed = 0
      · simp [hc] at h
      · simp only [hc, if_neg, ite_false] at h
        exact ih _ _ h h1 (lt_of_le_of_lt (Nat.sub_le _ _) h2)

/-! ### Claims -/

/-- C1 (counterexample).  The claim states: destruction completes without an
assertion failure IF AND ONLY IF the allocate counts sum equals the deallocate
counts sum and the construct calls equal the destroy calls.  On the sequence
`construct, destroy, destroy, construct` both balances hold (0 = 0 allocated,
2 = 2 constructed), yet the second `destroy` fires the fatal
`assert(nConstructed != 0)`, so the lifetime does not complete cleanly: the
"if" direction of the claimed equivalence is false. -/
theorem C1_counterexample :
    ¬ (destroyedCleanly 1 [Op.construct, Op.destroy, Op.destroy, Op.construct] = true ↔
        (sumAlloc [Op.construct, Op.destroy, Op.destroy, Op.construct] =
           sumDealloc [Op.construct, Op.destroy, Op.destroy, Op.construct] ∧
         numConstruct [Op.construct, Op.destroy, Op.destroy, Op.construct] =
           numDestroy [Op.construct, Op.destroy, Op.destroy, Op.construct])) := by
  decide

/-- C1 (amended).  A counted allocator's lifetime — default construction, a
call sequence, then instance destruction — completes without any assertion
failure iff (i) the total allocate count and total deallocate count are
congruent modulo `2 ^ 64`, (ii) the number of construct and destroy calls are
congruent modulo `2 ^ 64`, and (iii) no destroy call meets a zero
construction counter along the way. -/
theorem C1_balance_invariant (sz : Nat) (ops : List Op) :
    destroyedCleanly sz ops = true ↔
      (sumAlloc ops % szW = sumDealloc ops % szW ∧
       numConstruct ops % szW = numDestroy ops % szW ∧
       safeDestroys 0 ops = true) := by
  unfold destroyedCleanly
  have hsafe : (runOps (freshCounted sz) ops).isSome = safeDestroys 0 ops :=
    runOps_isSome_eq ops (freshCounted sz)
  cases hrun : runOps (freshCounted sz) ops with
  | none =>
    rw [hrun] at hsafe
    simp only [Option.isSome_none] at hsafe
    simp [← hsafe]
  | some a =>
    rw [hrun] at hsafe
    simp only [Option.isSome_some] at hsafe
    have hA := runOps_alloc_congr ops (freshCounted sz) a hrun
    have hC := runOps_con_congr ops (freshCounted sz) a hrun
    have hB := runOps_bounds ops (freshCounted sz) a hrun szW_pos szW_pos
    simp only [freshCounted, Nat.zero_add] at hA hC
    constructor
    · intro h
      simp only [cCountedAllocator.dtorPasses, Bool.and_eq_true, decide_eq_true_eq] at h
      refine ⟨?_, ?_, hsafe.symm⟩
      · rw [← hA, h.1, Nat.zero_add]
      · rw [← hC, h.2, Nat.zero_add]
    · rintro ⟨h1, h2, -⟩
      simp only [cCountedAllocator.dtorPasses, Bool.and_eq_true, decide_eq_true_eq]
      constructor
      · have := hA.trans h1
        have hb := hB.1
        simp only [szW] at this hb ⊢
        omega
      · have := hC.trans h2
        have hb := hB.2
        simp only [szW] at this hb ⊢
        omega

/-- C2 (counterexample).  The claim states `destroy(p)` FIRST asserts
`outstanding_constructions != 0` and only then runs the destructor.  In the
source (main.cpp 257-263) `p->~T()` runs before the assert: on an instance
with `nConstructed = 0` the observable trace is destructor-ran followed by
assert-fired, not a bare fatal assertion. -/
theorem C2_counterexample :
    (cCountedAllocator.destroy
        { sizeofT := 5, nAllocated := 0, nConstructed := 0 }).1 ≠ [Event.assertFail] ∧
    (cCountedAllocator.destroy
        { sizeofT := 5, nAllocated := 0, nConstructed := 0 }).1 =
      [Event.dtorRun, Event.assertFail] := by
  decide

/-- C2 (amended).  `destroy(p)` first runs the destructor of the object at
`p`, then asserts `outstanding_constructions != 0` (fatal when it is zero —
but only after the destructor has already run), then decrements
`outstanding_constructions` by 1. -/
theorem C2_destroy_order (a : cCountedAllocator) :
    (a.nConstructed = 0 →
       a.destroy = ([Event.dtorRun, Event.assertFail], none)) ∧
    (a.nConstructed ≠ 0 →
       a.destroy = ([Event.dtorRun],
         some { a with nConstructed := a.nConstructed - 1 })) := by
  constructor <;> intro h <;> simp [cCountedAllocator.destroy, h]

/-- Witness for C2: both branches at concrete instances. -/
theorem C2_destroy_order_witness :
    cCountedAllocator.destroy { sizeofT := 5, nAllocated := 0, nConstructed := 0 } =
      ([Event.dtorRun, Event.assertFail], none) ∧
    cCountedAllocator.destroy { sizeofT := 5, nAllocated := 2, nConstructed := 3 } =
      ([Event.dtorRun], some { sizeofT := 5, nAllocated := 2, nConstructed := 2 }) :=
  ⟨(C2_destroy_order { sizeofT := 5, nAllocated := 0, nConstructed := 0 }).1 rfl,
   (C2_destroy_order { sizeofT := 5, nAllocated := 2, nConstructed := 3 }).2 (by decide)⟩

/-- C3.  Within one strategy variant the equality operator is constantly
`true` and the inequality operator constantly `false`, whatever the
element-type parameterization (`sizeofT`) or counter state; hence the
relation is reflexive and symmetric. -/
theorem C3_equivalence (a b : cDefaultAllocator) (c d : cCountedAllocator) :
    defaultEq a b = true ∧ defaultNe a b = false ∧
    countedEq c d = true ∧ countedNe c d = false ∧
    defaultEq a a = true ∧ countedEq c c = true ∧
    defaultEq a b = defaultEq b a ∧ countedEq c d = countedEq d c := by
  simp [defaultEq, defaultNe, countedEq, countedNe]

/-- C4.  Rebinding a `T`-allocator to `U` and back to `T` returns exactly the
original instance (so in particular an equivalent one), and for the Counted
variant both counters survive the round trip unchanged. -/
theorem C4_rebind_roundtrip (a : cDefaultAllocator) (c : cCountedAllocator) (sizeofU : Nat) :
    (a.rebindTo sizeofU).rebindTo a.sizeofT = a ∧
    defaultEq ((a.rebindTo sizeofU).rebindTo a.sizeofT) a = true ∧
    (c.rebindTo sizeofU).rebindTo c.sizeofT = c ∧
    countedEq ((c.rebindTo sizeofU).rebindTo c.sizeofT) c = true ∧
    ((c.rebindTo sizeofU).rebindTo c.sizeofT).nAllocated = c.nAllocated ∧
    ((c.rebindTo sizeofU).rebindTo c.sizeofT).nConstructed = c.nConstructed :=
  ⟨rfl, rfl, rfl, rfl, rfl, rfl⟩

/-- The spec's wording of `max_size`, written independently for the
refinement comparison: "the largest representable unsigned size divided by
the element's storage size". -/
def specMaxSize (storageSize : Nat) : Nat := SIZE_MAX / storageSize

/-- C5.  Both variants' `max_size` return exactly the largest representable
unsigned size integer-divided by the element size; the Counted variant's
result does not depend on either counter (the member is pure), and the
function is total (never fails). -/
theorem C5_max_size (a : cDefaultAllocator) (c : cCountedAllocator) :
    a.max_size = specMaxSize a.sizeofT ∧
    c.max_size = specMaxSize c.sizeofT ∧
    (∀ nA nC : Nat,
      cCountedAllocator.max_size
        { sizeofT := c.sizeofT, nAllocated := nA, nConstructed := nC } = c.max_size) :=
  ⟨rfl, rfl, fun _ _ => rfl⟩

/-- Division chains only lose: `(m / a) * (a / b) ≤ m / b`. -/
theorem div_mul_div_le (m a b : Nat) : m / a * (a / b) ≤ m / b := by
  rcases Nat.eq_zero_or_pos b with hb | hb
  · subst hb
    simp [Nat.div_zero]
  · rw [Nat.le_div_iff_mul_le hb]
    calc m / a * (a / b) * b = m / a * (a / b * b) := by rw [Nat.mul_assoc]
      _ ≤ m / a * a := Nat.mul_le_mul_left _ (Nat.div_mul_le_self a b)
      _ ≤ m := Nat.div_mul_le_self m a

/-- C6 (counterexample).  The claim states `max_size` for `T` EQUALS
`max_size` for `U` times `sizeof(U) / sizeof(T)`.  With `sizeof(T) = 3` and
`sizeof(U) = 5` (e.g. `char[3]` and `char[5]`) the quotient `5 / 3 = 1` and
`SIZE_MAX / 3 ≠ SIZE_MAX / 5`. -/
theorem C6_counterexample :
    cDefaultAllocator.max_size { sizeofT := 3 } ≠
      cDefaultAllocator.max_size { sizeofT := 5 } * (5 / 3) := by
  decide

/-- C6 (amended).  `max_size()` for element type `T` is AT LEAST `max_size()`
for element type `U` multiplied by the integer quotient
`sizeof(U) / sizeof(T)`, for the same strategy (equality fails in general). -/
theorem C6_max_size_bound (sizeofT sizeofU nA nC nA' nC' : Nat) :
    cDefaultAllocator.max_size { sizeofT := sizeofU } * (sizeofU / sizeofT) ≤
      cDefaultAllocator.max_size { sizeofT := sizeofT } ∧
    cCountedAllocator.max_size
        { sizeofT := sizeofU, nAllocated := nA, nConstructed := nC } * (sizeofU / sizeofT) ≤
      cCountedAllocator.max_size
        { sizeofT := sizeofT, nAllocated := nA', nConstructed := nC' } :=
  ⟨div_mul_div_le SIZE_MAX sizeofU sizeofT, div_mul_div_le SIZE_MAX sizeofU sizeofT⟩

/-- C7.  `allocate(n)` acquires memory and adds exactly `n` to
`nAllocated` (stated exactly below the `size_t` wrap threshold), leaving
`nConstructed` untouched; `deallocate(p, n)` releases memory and subtracts
exactly `n` (when `n` does not exceed the counter), leaving `nConstructed`
untouched; `construct` adds exactly 1 to `nConstructed`, leaving
`nAllocated` untouched. -/
theorem C7_counter_deltas (a : cCountedAllocator) (n : Nat) :
    (a.allocate n).1 = [Event.acquire] ∧
    (a.nAllocated + n < szW →
       (a.allocate n).2 = { a with nAllocated := a.nAllocated + n }) ∧
    (a.allocate n).2.nConstructed = a.nConstructed ∧
    (a.deallocate n).1 = [Event.release] ∧
    (n ≤ a.nAllocated ∧ a.nAllocated < szW →
       (a.deallocate n).2 = { a with nAllocated := a.nAllocated - n }) ∧
    (a.deallocate n).2.nConstructed = a.nConstructed ∧
    a.construct.1 = [Event.ctorRun] ∧
    (a.nConstructed + 1 < szW →
       a.construct.2 = { a with nConstructed := a.nConstructed + 1 }) ∧
    a.construct.2.nAllocated = a.nAllocated := by
  refine ⟨rfl, ?_, rfl, rfl, ?_, rfl, rfl, ?_, rfl⟩
  · intro h
    have hm : (a.nAllocated + n) % szW = a.nAllocated + n := Nat.mod_eq_of_lt h
    simp [cCountedAllocator.allocate, hm]
  · rintro ⟨h1, h2⟩
    have hm : (a.nAllocated + (szW - n % szW)) % szW = a.nAllocated - n := by
      have hn : n % szW = n := Nat.mod_eq_of_lt (lt_of_le_of_lt h1 h2)
      rw [hn]
      have hsplit : a.nAllocated + (szW - n) = szW + (a.nAllocated - n) := by omega
      rw [hsplit, Nat.add_mod_left, Nat.mod_eq_of_lt (by omega)]
    simp [cCountedAllocator.deallocate, hm]
  · intro h
    have hm : (a.nConstructed + 1) % szW = a.nConstructed + 1 := Nat.mod_eq_of_lt h
    simp [cCountedAllocator.construct, hm]

/-- Witness for C7 at a concrete instance and count. -/
theorem C7_counter_deltas_witness :
    (cCountedAllocator.allocate { sizeofT := 4, nAllocated := 10, nConstructed := 2 } 3).2 =
      { sizeofT := 4, nAllocated := 13, nConstructed := 2 } ∧
    (cCountedAllocator.deallocate { sizeofT := 4, nAllocated := 10, nConstructed := 2 } 3).2 =
      { sizeofT := 4, nAllocated := 7, nConstructed := 2 } ∧
    (cCountedAllocator.construct { sizeofT := 4, nAllocated := 10, nConstructed := 2 }).2 =
      { sizeofT := 4, nAllocated := 10, nConstructed := 3 } :=
  ⟨(C7_counter_deltas { sizeofT := 4, nAllocated := 10, nConstructed := 2 } 3).2.1
      (by decide),
   (C7_counter_deltas { sizeofT := 4, nAllocated := 10, nConstructed := 2 } 3).2.2.2.2.1
      ⟨by decide, by decide⟩,
   (C7_counter_deltas { sizeofT := 4, nAllocated := 10, nConstructed := 2 } 3).2.2.2.2.2.2.2.1
      (by decide)⟩

/-- Copy-construct a counted allocator, then `allocate` through the copy.
The C++ objects are distinct and their `size_t` members are value copies
(main.cpp 205-209), so the call reads and writes only the copy's state; the
pair is (state of the original, state of the copy after the call). -/
def copyThenAllocateOnCopy (a : cCountedAllocator) (n : Nat) :
    cCountedAllocator × cCountedAllocator :=
  (a, (a.copy.allocate n).2)

/-- C8.  Copy construction (same element type, and the converting/rebind form)
duplicates both counter values; after an `allocate` through the copy, the
copy's counter has advanced while the original instance's state is exactly
what it was — the counters are not shared. -/
theorem C8_copy_by_value (a : cCountedAllocator) (sizeofU n : Nat) :
    a.copy.nAllocated = a.nAllocated ∧
    a.copy.nConstructed = a.nConstructed ∧
    (a.rebindTo sizeofU).nAllocated = a.nAllocated ∧
    (a.rebindTo sizeofU).nConstructed = a.nConstructed ∧
    (copyThenAllocateOnCopy a n).1 = a ∧
    (copyThenAllocateOnCopy a n).2.nAllocated = (a.nAllocated + n) % szW ∧
    (copyThenAllocateOnCopy a n).2.nConstructed = a.nConstructed :=
  ⟨rfl, rfl, rfl, rfl, rfl, rfl, rfl⟩

/-- C9 (counterexample).  The claim states EVERY sequence whose total
deallocated count exceeds its total allocated count leaves
`outstanding_allocations` nonzero at destruction.  Two `deallocate` calls of
`2 ^ 63` elements each (total `2 ^ 64 > 0` allocated) wrap the `size_t`
counter exactly back to zero, and the instance is destroyed cleanly. -/
theorem C9_counterexample :
    sumAlloc [Op.dealloc (2 ^ 63), Op.dealloc (2 ^ 63)] <
      sumDealloc [Op.dealloc (2 ^ 63), Op.dealloc (2 ^ 63)] ∧
    destroyedCleanly 1 [Op.dealloc (2 ^ 63), Op.dealloc (2 ^ 63)] = true := by
  decide

/-- C9 (amended).  Both counters are (as unsigned values) always ≥ 0; a
`deallocate` below zero is unchecked at the counter level and wraps modulo
`2 ^ 64` (adding back the subtracted count modulo `2 ^ 64` recovers the old
counter); and every sequence whose total deallocated count exceeds its total
allocated count by an amount NOT divisible by `2 ^ 64` leaves
`nAllocated` nonzero at destruction, tripping the terminal assertion. -/
theorem C9_wrap_guard (sz : Nat) (ops : List Op) (a : cCountedAllocator)
    (h : runOps (freshCounted sz) ops = some a) :
    0 ≤ a.nAllocated ∧ 0 ≤ a.nConstructed ∧
    (∀ (b : cCountedAllocator) (n : Nat),
      ((b.deallocate n).2.nAllocated + n) % szW = b.nAllocated % szW) ∧
    (sumAlloc ops < sumDealloc ops →
      ¬ (szW ∣ (sumDealloc ops - sumAlloc ops)) →
      a.nAllocated ≠ 0) := by
  refine ⟨Nat.zero_le _, Nat.zero_le _, ?_, ?_⟩
  · intro b n
    simp only [cCountedAllocator.deallocate, szW]
    omega
  · intro hlt hdvd h0
    apply hdvd
    have hA := runOps_alloc_congr ops (freshCounted sz) a h
    rw [h0] at hA
    simp only [freshCounted, Nat.zero_add] at hA
    exact (Nat.modEq_iff_dvd' (Nat.le_of_lt hlt)).mp hA.symm

/-- Witness for C9: a single unmatched `deallocate` of 5 elements leaves the
counter at `2 ^ 64 - 5 ≠ 0`, so the terminal assertion trips. -/
theorem C9_wrap_guard_witness :
    runOps (freshCounted 1) [Op.dealloc 5] =
      some { sizeofT := 1, nAllocated := szW - 5, nConstructed := 0 } ∧
    ({ sizeofT := 1, nAllocated := szW - 5, nConstructed := 0 } : cCountedAllocator).nAllocated ≠ 0 := by
  have h : runOps (freshCounted 1) [Op.dealloc 5] =
      some { sizeofT := 1, nAllocated := szW - 5, nConstructed := 0 } := by decide
  refine ⟨h, (C9_wrap_guard 1 [Op.dealloc 5] _ h).2.2.2 (by decide) ?_⟩
  intro hd
  have h5 : sumDealloc [Op.dealloc 5] - sumAlloc [Op.dealloc 5] = 5 := by decide
  rw [h5] at hd
  exact absurd (Nat.le_of_dvd (by decide) hd) (by decide)

/-- C10.  The demo harness returns `true` on normal completion, and `main`
maps `true` to `EXIT_FAILURE` and `false` to `EXIT_SUCCESS`, so a successful
run reports failure to the hosting process. -/
theorem C10_exit_status :
    RunAllocatorTest = true ∧
    mainOf true = EXIT_FAILURE ∧
    mainOf false = EXIT_SUCCESS ∧
    mainResult = EXIT_FAILURE ∧
    EXIT_FAILURE ≠ EXIT_SUCCESS :=
  ⟨rfl, rfl, rfl, rfl, by decide⟩
